import Mathlib

/-!
Shallow embedding of `src/js/embcalc-modern.js` (EmbCalc, an embroidery
price calculator).  JS numbers are modelled as exact rationals `ℚ`; the JS
value `NaN` and parse failures are modelled by `Option ℚ = none`.  The
non-finite value `Infinity` is folded into the parse-failure case: every
`validateNumber` call site in the source uses a finite upper bound (10, 50,
1, or `Number.MAX_VALUE`), so an `Infinity` input and a `NaN` input produce
the same result (the default) and need not be distinguished.
-/

namespace EmbCalc

/-- A raw JavaScript value as it can reach `validateNumber`, a parsed JSON
field, or a form-element read: a finite number, `NaN`, a string, a boolean,
`null`, or `undefined` (also standing for an absent object property). -/
inductive JSVal where
  | num (q : ℚ)
  | nanV
  | str (s : String)
  | boolV (b : Bool)
  | nullV
  | undef
deriving DecidableEq

/-- JS `parseFloat` skips leading whitespace characters. -/
def isJsSpace (c : Char) : Bool :=
  c == ' ' || c == '\t' || c == '\n' || c == '\r'

/-- Read the longest leading run of decimal digits, extending the
accumulated value `acc` and digit count `k`; returns the value, the number
of digits read, and the unread remainder. -/
def readDigits : List Char → Nat → Nat → Nat × Nat × List Char
  | [], acc, k => (acc, k, [])
  | c :: r, acc, k =>
    if c.isDigit then readDigits r (acc * 10 + (c.toNat - 48)) (k + 1)
    else (acc, k, c :: r)

/-- Multiply by the decimal exponent of a float literal (`e`/`E` part). -/
def applyExp (q : ℚ) (e : Int) : ℚ :=
  match e with
  | .ofNat n => q * 10 ^ n
  | .negSucc n => q / 10 ^ (n + 1)

/-- The exponent part of a JS float literal: after `e`/`E`, an optional sign
and at least one digit; an invalid exponent part contributes nothing (JS
`parseFloat` backtracks, so the value of the mantissa alone is returned). -/
def parseExpPart (l : List Char) : Int :=
  if l.head? == some 'e' || l.head? == some 'E' then
    let r := l.tail
    let eNeg := r.head? == some '-'
    let r1 := if eNeg || r.head? == some '+' then r.tail else r
    let (v, k, _) := readDigits r1 0 0
    if k = 0 then 0 else if eNeg then -(v : Int) else (v : Int)
  else 0

/-- JS `parseFloat` on a character list: skip leading whitespace, read an
optional sign, then the longest leading decimal literal
`digits [. digits] [exponent]`; `none` models the `NaN` result when no
digits are found.  Trailing characters after the literal are ignored. -/
def parseFloatChars (l : List Char) : Option ℚ :=
  let l0 := l.dropWhile isJsSpace
  let isNeg := l0.head? == some '-'
  let l1 := if isNeg || l0.head? == some '+' then l0.tail else l0
  let (intVal, intCnt, l2) := readDigits l1 0 0
  let (fracVal, fracCnt, l3) :=
    if l2.head? == some '.' then readDigits l2.tail 0 0 else (0, 0, l2)
  if intCnt = 0 ∧ fracCnt = 0 then none
  else
    let mantissa : ℚ := (intVal : ℚ) + (fracVal : ℚ) / 10 ^ fracCnt
    some (applyExp (if isNeg then -mantissa else mantissa) (parseExpPart l3))

/-- JS `parseFloat` on a string. -/
def parseFloatStr (s : String) : Option ℚ :=
  parseFloatChars s.toList

/-- JS `parseInt` (radix 10 as produced by decimal form input): skip leading
whitespace, optional sign, then the longest leading run of decimal digits;
`none` models `NaN` when no digits are found. -/
def parseIntStr (s : String) : Option Int :=
  let l0 := s.toList.dropWhile isJsSpace
  let isNeg := l0.head? == some '-'
  let l1 := if isNeg || l0.head? == some '+' then l0.tail else l0
  let (v, k, _) := readDigits l1 0 0
  if k = 0 then none else if isNeg then some (-(v : Int)) else some (v : Int)

/-- JS `parseFloat` applied to an arbitrary value (the argument is coerced
to a string first): a finite number round-trips through its string form,
everything else that is not a string with a numeric leading literal gives
`NaN` (`parseFloat(undefined)`, `parseFloat(null)`, `parseFloat(true)`,
`parseFloat(NaN)` are all `NaN`). -/
def parseFloatJS : JSVal → Option ℚ
  | .num q => some q
  | .str s => parseFloatStr s
  | _ => none

/-- `validateNumber(value, defaultValue, min, max)` from
`src/js/embcalc-modern.js` lines 48-54:
`const num = parseFloat(value); if (isNaN(num) || num < min || num > max)
return defaultValue; return num;`. -/
def validateNumber (value : JSVal) (defaultValue mn mx : ℚ) : ℚ :=
  match parseFloatJS value with
  | none => defaultValue
  | some num => if num < mn ∨ num > mx then defaultValue else num

/-- The three pricing settings. -/
structure Settings where
  stitchRate : ℚ
  appliqueRate : ℚ
  insuranceRate : ℚ
deriving DecidableEq

/-- The defaults set in the constructor (lines 8-12):
stitchRate 0.50, appliqueRate 1.00, insuranceRate 0.10. -/
def defaultSettings : Settings :=
  { stitchRate := 1/2, appliqueRate := 1, insuranceRate := 1/10 }

/-- The result of `JSON.parse` on the stored settings string: an object
(whose three relevant properties are raw JS values, `undef` standing for an
absent property), some other non-null value (property access yields
`undefined`), or `null` (property access throws a `TypeError`). -/
inductive ParsedJSON where
  | jobj (stitchRate appliqueRate insuranceRate : JSVal)
  | jprim (v : JSVal)
  | jnull
deriving DecidableEq

/-- The state of the single `localStorage` entry `embcalc-settings`:
absent (`getItem` returns `null`), the empty string (falsy, so the load
body is skipped), a string on which `JSON.parse` throws, or a string that
parses to a JSON value. -/
inductive Stored where
  | absent
  | emptyStr
  | malformed
  | parsed (j : ParsedJSON)
deriving DecidableEq

/-- `saveSettings` (lines 38-45): `JSON.stringify(this.settings)` written
under the fixed key; the stored string parses back to an object whose three
properties are the three finite numbers. -/
def saveSettings (s : Settings) : Stored :=
  .parsed (.jobj (.num s.stitchRate) (.num s.appliqueRate) (.num s.insuranceRate))

/-- `loadSettings` (lines 20-35) as a function of the in-memory settings
`st` (set to the defaults by the constructor just before the call) and the
storage state; returns the new in-memory settings and the new storage
state.  The `catch` branch (reached when `JSON.parse` throws, or when the
parsed value is `null` so that `parsed.stitchRate` throws) calls
`saveSettings()` on the current `this.settings`; the other branches leave
storage untouched. -/
def loadSettings (st : Settings) (sto : Stored) : Settings × Stored :=
  match sto with
  | .absent => (st, sto)
  | .emptyStr => (st, sto)
  | .malformed => (st, saveSettings st)
  | .parsed .jnull => (st, saveSettings st)
  | .parsed (.jprim _) =>
    ({ stitchRate := validateNumber .undef (1/2) 0 10,
       appliqueRate := validateNumber .undef 1 0 50,
       insuranceRate := validateNumber .undef (1/10) 0 1 }, sto)
  | .parsed (.jobj a b c) =>
    ({ stitchRate := validateNumber a (1/2) 0 10,
       appliqueRate := validateNumber b 1 0 50,
       insuranceRate := validateNumber c (1/10) 0 1 }, sto)

/-- JS truthiness fallback `x || fallback` applied to a number-or-NaN
(`none` models `NaN`): `NaN` and `0` are falsy, every other number is
truthy. -/
def jsOrNum (x : Option ℚ) (fallback : ℚ) : ℚ :=
  match x with
  | none => fallback
  | some q => if q = 0 then fallback else q

/-- JS truthiness fallback `x || fallback` for a `parseInt` result. -/
def jsOrInt (x : Option Int) (fallback : Int) : Int :=
  match x with
  | none => fallback
  | some n => if n = 0 then fallback else n

/-- `saveSettingsFromForm` (lines 368-377), as a function of the three raw
form-element reads (`document.getElementById(...)?.value`, a string when
the element exists and `undefined` otherwise):
`parseFloat(...) || 0.50`, `parseFloat(...) || 1.00`,
`parseFloat(...) / 100 || 0.10`, each then passed through
`validateNumber`.  (In JS, dividing `NaN` by 100 is `NaN`, modelled by
`Option.map`.) -/
def saveSettingsFromForm (rawStitch rawApplique rawInsurance : JSVal) : Settings :=
  let stitchRate := jsOrNum (parseFloatJS rawStitch) (1/2)
  let appliqueRate := jsOrNum (parseFloatJS rawApplique) 1
  let insuranceRate := jsOrNum ((parseFloatJS rawInsurance).map (fun q => q / 100)) (1/10)
  { stitchRate := validateNumber (.num stitchRate) (1/2) 0 10,
    appliqueRate := validateNumber (.num appliqueRate) 1 0 50,
    insuranceRate := validateNumber (.num insuranceRate) (1/10) 0 1 }

/-- The order data extracted from the form (lines 208-214). -/
structure OrderInput where
  stitches : ℚ
  items : ℚ
  appliques : ℚ
  blankCost : ℚ
  designCost : ℚ
deriving DecidableEq

/-- The result record of `performCalculations` (lines 228-236). -/
structure PriceBreakdown where
  stitchCost : ℚ
  appliqueCost : ℚ
  blankCost : ℚ
  insuranceCost : ℚ
  designCost : ℚ
  perItemCost : ℚ
  totalCost : ℚ
deriving DecidableEq

/-- `performCalculations` (lines 218-237), reading `this.settings`. -/
def performCalculations (settings : Settings) (data : OrderInput) : PriceBreakdown :=
  let stitchCost := data.stitches / 1000 * settings.stitchRate
  let appliqueCost := data.appliques * settings.appliqueRate
  let blankCost := data.blankCost
  let insuranceCost := blankCost * settings.insuranceRate
  let designCost := data.designCost
  let perItemCost := stitchCost + appliqueCost + blankCost + insuranceCost + designCost
  let totalCost := perItemCost * data.items
  { stitchCost := stitchCost, appliqueCost := appliqueCost,
    blankCost := blankCost, insuranceCost := insuranceCost,
    designCost := designCost, perItemCost := perItemCost,
    totalCost := totalCost }

/-- `Number.MAX_VALUE`, the largest finite double:
`(2 - 2 ^ -52) * 2 ^ 1023 = (2 ^ 53 - 1) * 2 ^ 971`. -/
def jsMaxValue : ℚ := (2 ^ 53 - 1) * 2 ^ 971

/-- One numeric form input as `validateInput` sees it: its `required`
attribute, its current string value, and its `min`/`max` attribute strings
(the empty string when the attribute is absent, so that `parseFloat`
yields `NaN` and the `|| 0` / `|| Number.MAX_VALUE` fallbacks apply). -/
structure InputField where
  required : Bool
  value : String
  minAttr : String
  maxAttr : String
deriving DecidableEq

/-- `validateInput` (lines 116-147), without the DOM error rendering:
`true` when the field passes.  An optional empty field passes; a required
empty or non-numeric field fails; otherwise a parsed value outside
`[parseFloat(min) || 0, parseFloat(max) || Number.MAX_VALUE]` fails. -/
def validateInput (input : InputField) : Bool :=
  let value := parseFloatStr input.value
  if input.value = "" ∧ input.required = false then true
  else if input.required = true ∧ (input.value = "" ∨ value = none) then false
  else
    let mn := jsOrNum (parseFloatStr input.minAttr) 0
    let mx := jsOrNum (parseFloatStr input.maxAttr) jsMaxValue
    match value with
    | none => true
    | some v => if v < mn ∨ v > mx then false else true

/-- `getFormData` (lines 188-215): run `validateInput` over the five
numeric inputs; on any failure return `null` (here `none`), otherwise
extract the order with `parseInt`/`parseFloat` and truthiness defaults
(`stitches || 0`, `items || 1`, `appliques || 0`, `blankCost || 0`,
`designCost || 0`). -/
def getFormData (stitches items appliques blankCost designCost : InputField) :
    Option OrderInput :=
  if validateInput stitches && validateInput items && validateInput appliques &&
      validateInput blankCost && validateInput designCost then
    some { stitches := (jsOrInt (parseIntStr stitches.value) 0 : ℚ),
           items := (jsOrInt (parseIntStr items.value) 1 : ℚ),
           appliques := (jsOrInt (parseIntStr appliques.value) 0 : ℚ),
           blankCost := jsOrNum (parseFloatStr blankCost.value) 0,
           designCost := jsOrNum (parseFloatStr designCost.value) 0 }
  else none

/-- Modelled from the spec: the HTML document (not part of `src/`, which
holds only the script) marks the stitches input as a required field; the
spec calls stitches the primary size driver whose absence is a validation
failure. -/
def stitchesRequired : Bool := true

/-- The declared range invariant on the three settings (spec section 3). -/
def settingsInvariant (s : Settings) : Prop :=
  0 ≤ s.stitchRate ∧ s.stitchRate ≤ 10 ∧
  0 ≤ s.appliqueRate ∧ s.appliqueRate ≤ 50 ∧
  0 ≤ s.insuranceRate ∧ s.insuranceRate ≤ 1

/-! ## Helper lemmas -/

theorem validateNumber_parse_none {v : JSVal} (d mn mx : ℚ)
    (h : parseFloatJS v = none) : validateNumber v d mn mx = d := by
  unfold validateNumber
  rw [h]

theorem validateNumber_parse_some_in {v : JSVal} {n : ℚ} (d mn mx : ℚ)
    (h : parseFloatJS v = some n) (h1 : mn ≤ n) (h2 : n ≤ mx) :
    validateNumber v d mn mx = n := by
  unfold validateNumber
  rw [h]
  simp [not_lt.mpr h1, not_lt.mpr h2]

theorem validateNumber_parse_some_out {v : JSVal} {n : ℚ} (d mn mx : ℚ)
    (h : parseFloatJS v = some n) (hout : n < mn ∨ n > mx) :
    validateNumber v d mn mx = d := by
  unfold validateNumber
  rw [h]
  simp [hout]

theorem validateNumber_invalid {v : JSVal} (d mn mx : ℚ)
    (h : parseFloatJS v = none ∨ ∃ m, parseFloatJS v = some m ∧ (m < mn ∨ m > mx)) :
    validateNumber v d mn mx = d := by
  rcases h with h | ⟨m, hm, hout⟩
  · exact validateNumber_parse_none d mn mx h
  · exact validateNumber_parse_some_out d mn mx hm hout

theorem validateNumber_mem (v : JSVal) (d mn mx : ℚ)
    (h1 : mn ≤ d) (h2 : d ≤ mx) :
    mn ≤ validateNumber v d mn mx ∧ validateNumber v d mn mx ≤ mx := by
  unfold validateNumber
  cases parseFloatJS v with
  | none => exact ⟨h1, h2⟩
  | some q =>
    by_cases hc : q < mn ∨ q > mx
    · simp [hc]
      exact ⟨h1, h2⟩
    · push_neg at hc
      simp [not_lt.mpr hc.1, not_lt.mpr hc.2]
      exact hc

theorem validateNumber_num_self (q d mn mx : ℚ) (h1 : mn ≤ q) (h2 : q ≤ mx) :
    validateNumber (.num q) d mn mx = q :=
  validateNumber_parse_some_in d mn mx rfl h1 h2

theorem settingsInvariant_default : settingsInvariant defaultSettings := by
  refine ⟨?_, ?_, ?_, ?_, ?_, ?_⟩ <;> norm_num [defaultSettings]

theorem loadSettings_preserves_invariant (st : Settings) (sto : Stored)
    (h : settingsInvariant st) : settingsInvariant (loadSettings st sto).1 := by
  cases sto with
  | absent => exact h
  | emptyStr => exact h
  | malformed => exact h
  | parsed j =>
    cases j with
    | jnull => exact h
    | jprim v =>
      refine ⟨?_, ?_, ?_, ?_, ?_, ?_⟩ <;>
        simp [loadSettings] <;> norm_num [validateNumber, parseFloatJS]
    | jobj a b c =>
      have h1 := validateNumber_mem a (1/2) 0 10 (by norm_num) (by norm_num)
      have h2 := validateNumber_mem b 1 0 50 (by norm_num) (by norm_num)
      have h3 := validateNumber_mem c (1/10) 0 1 (by norm_num) (by norm_num)
      exact ⟨h1.1, h1.2, h2.1, h2.2, h3.1, h3.2⟩

theorem saveSettingsFromForm_invariant (rs ra ri : JSVal) :
    settingsInvariant (saveSettingsFromForm rs ra ri) := by
  have h1 := validateNumber_mem
    (.num (jsOrNum (parseFloatJS rs) (1/2))) (1/2) 0 10 (by norm_num) (by norm_num)
  have h2 := validateNumber_mem
    (.num (jsOrNum (parseFloatJS ra) 1)) 1 0 50 (by norm_num) (by norm_num)
  have h3 := validateNumber_mem
    (.num (jsOrNum ((parseFloatJS ri).map (fun q => q / 100)) (1/10))) (1/10) 0 1
    (by norm_num) (by norm_num)
  exact ⟨h1.1, h1.2, h2.1, h2.2, h3.1, h3.2⟩

theorem loadSettings_of_save (st2 : Settings) (s : Settings)
    (h : settingsInvariant s) : (loadSettings st2 (saveSettings s)).1 = s := by
  obtain ⟨h1, h2, h3, h4, h5, h6⟩ := h
  show Settings.mk _ _ _ = s
  rw [validateNumber_num_self _ _ _ _ h1 h2, validateNumber_num_self _ _ _ _ h3 h4,
    validateNumber_num_self _ _ _ _ h5 h6]

/-! ## Claim theorems -/

/-- C1: for every `OrderInput` and every `Settings`, `performCalculations`
returns exactly the breakdown
`stitchCost = (stitches / 1000) * stitchRate`,
`appliqueCost = appliques * appliqueRate`, `blankCost = order.blankCost`,
`insuranceCost = blankCost * insuranceRate`, `designCost = order.designCost`,
`perItemCost` the sum of the five costs, and
`totalCost = perItemCost * items`. -/
theorem performCalculations_spec (settings : Settings) (o : OrderInput) :
    (performCalculations settings o).stitchCost = o.stitches / 1000 * settings.stitchRate ∧
    (performCalculations settings o).appliqueCost = o.appliques * settings.appliqueRate ∧
    (performCalculations settings o).blankCost = o.blankCost ∧
    (performCalculations settings o).insuranceCost = o.blankCost * settings.insuranceRate ∧
    (performCalculations settings o).designCost = o.designCost ∧
    (performCalculations settings o).perItemCost =
      (performCalculations settings o).stitchCost +
      (performCalculations settings o).appliqueCost +
      (performCalculations settings o).blankCost +
      (performCalculations settings o).insuranceCost +
      (performCalculations settings o).designCost ∧
    (performCalculations settings o).totalCost =
      (performCalculations settings o).perItemCost * o.items :=
  ⟨rfl, rfl, rfl, rfl, rfl, rfl, rfl⟩

/-- C2: `validateNumber(x, d, min, max)` returns the parsed value of `x`
when that value is a (finite) number inside `[min, max]`, and returns `d`
when parsing fails (`NaN`) or the parsed value lies outside `[min, max]`. -/
theorem validateNumber_spec (x : JSVal) (d mn mx n : ℚ) :
    (parseFloatJS x = none → validateNumber x d mn mx = d) ∧
    (parseFloatJS x = some n → mn ≤ n → n ≤ mx → validateNumber x d mn mx = n) ∧
    (parseFloatJS x = some n → (n < mn ∨ n > mx) → validateNumber x d mn mx = d) :=
  ⟨fun h => validateNumber_parse_none d mn mx h,
   fun h h1 h2 => validateNumber_parse_some_in d mn mx h h1 h2,
   fun h hout => validateNumber_parse_some_out d mn mx h hout⟩

/-- Witness for C2 at the concrete input `"7"` in `[0, 10]` with default
`1`: the parsed value `7` is returned. -/
theorem validateNumber_spec_witness :
    validateNumber (.str "7") 1 0 10 = 7 :=
  (validateNumber_spec (.str "7") 1 0 10 7).2.1
    (by simp +decide [parseFloatJS, parseFloatStr, parseFloatChars, readDigits,
      parseExpPart, isJsSpace, applyExp])
    (by norm_num) (by norm_num)

/-- C10: a raw string whose leading characters parse as a number inside the
range but which carries trailing non-numeric characters is accepted by
`validateNumber`, which returns the parsed-prefix value: `"5abc"` in
`[0, 10]` gives `5`, not the default. -/
theorem validateNumber_trailing_junk (d : ℚ) :
    parseFloatStr "5abc" = some 5 ∧ validateNumber (.str "5abc") d 0 10 = 5 := by
  have h : parseFloatStr "5abc" = some 5 := by
    simp +decide [parseFloatStr, parseFloatChars, readDigits, parseExpPart,
      isJsSpace, applyExp]
  exact ⟨h, validateNumber_parse_some_in d 0 10 h (by norm_num) (by norm_num)⟩

/-- C3 counterexample: with the settings entry absent from storage, `load`
returns the default Settings but does not trigger a save — storage is left
absent, while a save of the defaults would have left a parsed record. -/
theorem loadSettings_absent_no_save :
    (loadSettings defaultSettings .absent).1 = defaultSettings ∧
    (loadSettings defaultSettings .absent).2 = .absent ∧
    Stored.absent ≠ saveSettings defaultSettings :=
  ⟨rfl, rfl, fun h => by simp [saveSettings] at h⟩

/-- C3 amended: whenever the settings entry is absent, empty, or present
but not deserializable, `load` returns the default Settings; the save of
the defaults back to storage happens only when deserialization throws
(malformed encoding, or a stored `null` whose property access throws), not
when the entry is absent/empty or parses to a non-object value (whose
missing fields merely fail field validation to the defaults). -/
theorem loadSettings_missing_or_malformed (v : JSVal) :
    loadSettings defaultSettings .absent = (defaultSettings, .absent) ∧
    loadSettings defaultSettings .emptyStr = (defaultSettings, .emptyStr) ∧
    loadSettings defaultSettings .malformed =
      (defaultSettings, saveSettings defaultSettings) ∧
    loadSettings defaultSettings (.parsed .jnull) =
      (defaultSettings, saveSettings defaultSettings) ∧
    loadSettings defaultSettings (.parsed (.jprim v)) =
      (defaultSettings, .parsed (.jprim v)) :=
  ⟨rfl, rfl, rfl, rfl, rfl⟩

/-- C4: for a stored record that parses to an object in which exactly one
of the three fields is invalid (non-numeric or out of its range) while the
other two are valid, `load` keeps the two valid stored values and replaces
only the corrupt field by its default. -/
theorem loadSettings_field_isolation :
    (∀ (a b c : JSVal) (y z : ℚ),
      (parseFloatJS a = none ∨ ∃ m, parseFloatJS a = some m ∧ (m < 0 ∨ m > 10)) →
      parseFloatJS b = some y → 0 ≤ y → y ≤ 50 →
      parseFloatJS c = some z → 0 ≤ z → z ≤ 1 →
      (loadSettings defaultSettings (.parsed (.jobj a b c))).1 =
        { stitchRate := 1/2, appliqueRate := y, insuranceRate := z }) ∧
    (∀ (a b c : JSVal) (x z : ℚ),
      parseFloatJS a = some x → 0 ≤ x → x ≤ 10 →
      (parseFloatJS b = none ∨ ∃ m, parseFloatJS b = some m ∧ (m < 0 ∨ m > 50)) →
      parseFloatJS c = some z → 0 ≤ z → z ≤ 1 →
      (loadSettings defaultSettings (.parsed (.jobj a b c))).1 =
        { stitchRate := x, appliqueRate := 1, insuranceRate := z }) ∧
    (∀ (a b c : JSVal) (x y : ℚ),
      parseFloatJS a = some x → 0 ≤ x → x ≤ 10 →
      parseFloatJS b = some y → 0 ≤ y → y ≤ 50 →
      (parseFloatJS c = none ∨ ∃ m, parseFloatJS c = some m ∧ (m < 0 ∨ m > 1)) →
      (loadSettings defaultSettings (.parsed (.jobj a b c))).1 =
        { stitchRate := x, appliqueRate := y, insuranceRate := 1/10 }) := by
  refine ⟨?_, ?_, ?_⟩
  · intro a b c y z ha hb hb1 hb2 hc hc1 hc2
    show Settings.mk _ _ _ = _
    rw [validateNumber_invalid _ _ _ ha, validateNumber_parse_some_in _ _ _ hb hb1 hb2,
      validateNumber_parse_some_in _ _ _ hc hc1 hc2]
  · intro a b c x z ha ha1 ha2 hb hc hc1 hc2
    show Settings.mk _ _ _ = _
    rw [validateNumber_parse_some_in _ _ _ ha ha1 ha2, validateNumber_invalid _ _ _ hb,
      validateNumber_parse_some_in _ _ _ hc hc1 hc2]
  · intro a b c x y ha ha1 ha2 hb hb1 hb2 hc
    show Settings.mk _ _ _ = _
    rw [validateNumber_parse_some_in _ _ _ ha ha1 ha2,
      validateNumber_parse_some_in _ _ _ hb hb1 hb2, validateNumber_invalid _ _ _ hc]

/-- Witness for C4: stored record with `stitchRate` undefined (corrupt),
`appliqueRate` 2 and `insuranceRate` 1/2 (both valid): the load keeps 2 and
1/2 and defaults `stitchRate` to 0.50. -/
theorem loadSettings_field_isolation_witness :
    (loadSettings defaultSettings (.parsed (.jobj .undef (.num 2) (.num (1/2))))).1 =
      { stitchRate := 1/2, appliqueRate := 2, insuranceRate := 1/2 } :=
  loadSettings_field_isolation.1 .undef (.num 2) (.num (1/2)) 2 (1/2)
    (Or.inl rfl) rfl (by norm_num) (by norm_num) rfl (by norm_num) (by norm_num)

/-- C5: for every storage state, loading (with the constructor-set
defaults in memory, as in the program), then saving the just-loaded
settings, makes any subsequent load return the identical Settings value. -/
theorem load_save_load_roundtrip (sto : Stored) (st2 : Settings) :
    (loadSettings st2 (saveSettings (loadSettings defaultSettings sto).1)).1 =
      (loadSettings defaultSettings sto).1 :=
  loadSettings_of_save st2 _
    (loadSettings_preserves_invariant defaultSettings sto settingsInvariant_default)

/-- C6: the range invariant `0 ≤ stitchRate ≤ 10`, `0 ≤ appliqueRate ≤ 50`,
`0 ≤ insuranceRate ≤ 1` holds for the initial defaults and is preserved by
every Settings mutation: a load from any storage state, and a save of any
user-entered form values. -/
theorem settings_invariant_preserved :
    settingsInvariant defaultSettings ∧
    (∀ (st : Settings) (sto : Stored), settingsInvariant st →
      settingsInvariant (loadSettings st sto).1) ∧
    (∀ rs ra ri : JSVal, settingsInvariant (saveSettingsFromForm rs ra ri)) :=
  ⟨settingsInvariant_default, loadSettings_preserves_invariant,
   saveSettingsFromForm_invariant⟩

/-- Witness for C6: the invariant after a load from malformed storage,
starting from the default settings. -/
theorem settings_invariant_preserved_witness :
    settingsInvariant (loadSettings defaultSettings Stored.malformed).1 :=
  settings_invariant_preserved.2.1 defaultSettings Stored.malformed
    (by refine ⟨?_, ?_, ?_, ?_, ?_, ?_⟩ <;> norm_num [settingsInvariant, defaultSettings])

theorem validateNumber_jsOr_agree (v : JSVal) (d mn mx : ℚ)
    (h : parseFloatJS v ≠ some 0) :
    validateNumber v d mn mx = validateNumber (.num (jsOrNum (parseFloatJS v) d)) d mn mx := by
  cases hp : parseFloatJS v with
  | none =>
    rw [validateNumber_parse_none d mn mx hp]
    by_cases hc : d < mn ∨ d > mx
    · exact (validateNumber_parse_some_out d mn mx
        (show parseFloatJS (JSVal.num (jsOrNum none d)) = some (jsOrNum none d) from rfl)
        hc).symm
    · push_neg at hc
      exact (validateNumber_parse_some_in d mn mx
        (show parseFloatJS (JSVal.num (jsOrNum none d)) = some (jsOrNum none d) from rfl)
        hc.1 hc.2).symm
  | some q =>
    have hq : q ≠ 0 := fun h0 => h (h0 ▸ hp)
    have hj : jsOrNum (some q) d = q := by simp [jsOrNum, hq]
    rw [hj]
    by_cases hc : q < mn ∨ q > mx
    · rw [validateNumber_parse_some_out d mn mx hp hc,
        validateNumber_parse_some_out d mn mx
          (show parseFloatJS (JSVal.num q) = some q from rfl) hc]
    · push_neg at hc
      rw [validateNumber_parse_some_in d mn mx hp hc.1 hc.2,
        validateNumber_num_self q d mn mx hc.1 hc.2]

/-- C7 counterexample: the raw stitch-rate value `"0"` produces different
results on the two paths — loading it from storage yields 0, while saving
it from the settings form yields the default 0.50. -/
theorem validation_paths_differ :
    (loadSettings defaultSettings
      (.parsed (.jobj (.str "0") (.num 1) (.num (1/10))))).1.stitchRate = 0 ∧
    (saveSettingsFromForm (.str "0") (.num 1) (.num 10)).stitchRate = 1/2 ∧
    (0 : ℚ) ≠ 1/2 := by
  have h0 : parseFloatStr "0" = some 0 := by
    simp +decide [parseFloatStr, parseFloatChars, readDigits, parseExpPart,
      isJsSpace, applyExp]
  refine ⟨?_, ?_, by norm_num⟩
  · show validateNumber (.str "0") (1/2) 0 10 = 0
    exact validateNumber_parse_some_in _ _ _ h0 le_rfl (by norm_num)
  · show validateNumber (.num (jsOrNum (parseFloatJS (.str "0")) (1/2))) (1/2) 0 10 = 1/2
    rw [show parseFloatJS (.str "0") = some 0 from h0]
    simp only [jsOrNum, if_pos rfl]
    exact validateNumber_num_self _ _ _ _ (by norm_num) (by norm_num)

/-- C7 amended: the same `validateNumber` bounds govern both paths, but the
save-from-form path first applies a truthiness-OR default substitution (and,
for the insurance rate, a division by 100), so the two paths coincide for
the stitch-rate and applique-rate fields exactly when the raw value does not
parse to 0; a raw 0 (and insurance percentages generally) differ. -/
theorem validation_paths_agree_nonzero (v ra ri : JSVal) :
    (parseFloatJS v ≠ some 0 →
      (loadSettings defaultSettings (.parsed (.jobj v ra ri))).1.stitchRate =
        (saveSettingsFromForm v ra ri).stitchRate) ∧
    (parseFloatJS v ≠ some 0 →
      (loadSettings defaultSettings (.parsed (.jobj ra v ri))).1.appliqueRate =
        (saveSettingsFromForm ra v ri).appliqueRate) :=
  ⟨fun h => validateNumber_jsOr_agree v (1/2) 0 10 h,
   fun h => validateNumber_jsOr_agree v 1 0 50 h⟩

/-- Witness for C7 amended: the raw stitch-rate value `5` gives the same
result (5) on the load path and on the save-from-form path. -/
theorem validation_paths_agree_nonzero_witness :
    (loadSettings defaultSettings
      (.parsed (.jobj (.num 5) (.num 1) (.num (1/10))))).1.stitchRate =
      (saveSettingsFromForm (.num 5) (.num 1) (.num (1/10))).stitchRate :=
  (validation_paths_agree_nonzero (.num 5) (.num 1) (.num (1/10))).1
    (by simp [parseFloatJS])

/-- C8: in the settings-save-from-form operation, a raw insurance-rate form
value of 0 is treated as missing by the `|| 0.10` fallback applied after
the division by 100, so the stored insuranceRate is the default 0.10, not
0. -/
theorem insuranceRate_zero_from_form (rs ra : JSVal) :
    (saveSettingsFromForm rs ra (.num 0)).insuranceRate = 1/10 ∧
    (saveSettingsFromForm rs ra (.str "0")).insuranceRate = 1/10 ∧
    (1/10 : ℚ) ≠ 0 := by
  have h0 : parseFloatStr "0" = some 0 := by
    simp +decide [parseFloatStr, parseFloatChars, readDigits, parseExpPart,
      isJsSpace, applyExp]
  refine ⟨?_, ?_, by norm_num⟩
  · have hj : jsOrNum ((parseFloatJS (JSVal.num 0)).map (fun q => q / 100)) (1/10) = 1/10 := by
      simp [parseFloatJS, jsOrNum]
    show validateNumber
      (.num (jsOrNum ((parseFloatJS (.num 0)).map (fun q => q / 100)) (1/10)))
      (1/10) 0 1 = 1/10
    rw [hj]
    exact validateNumber_num_self (1/10) (1/10) 0 1 (by norm_num) (by norm_num)
  · have hj : jsOrNum ((parseFloatJS (JSVal.str "0")).map (fun q => q / 100)) (1/10) = 1/10 := by
      rw [show parseFloatJS (.str "0") = some 0 from h0]
      simp [jsOrNum]
    show validateNumber
      (.num (jsOrNum ((parseFloatJS (.str "0")).map (fun q => q / 100)) (1/10)))
      (1/10) 0 1 = 1/10
    rw [hj]
    exact validateNumber_num_self (1/10) (1/10) 0 1 (by norm_num) (by norm_num)

/-- C9: when the stitches field is empty or non-numeric, form-data
extraction fails validation and returns `none`, so the pricing computation
is never invoked and stitches is never silently defaulted to 0.  The
`required` attribute of the stitches input lives in the HTML document,
modelled from the spec as `stitchesRequired = true`. -/
theorem getFormData_missing_stitches
    (stitches items appliques blankCost designCost : InputField)
    (hreq : stitches.required = stitchesRequired)
    (hbad : stitches.value = "" ∨ parseFloatStr stitches.value = none) :
    getFormData stitches items appliques blankCost designCost = none := by
  have hreq' : stitches.required = true := hreq
  have hv : validateInput stitches = false := by
    unfold validateInput
    rw [hreq']
    rcases hbad with h | h <;> simp [h]
  unfold getFormData
  rw [hv]
  simp

/-- Witness for C9: a required, empty stitches field makes `getFormData`
return `none` even when every other field is well-formed. -/
theorem getFormData_missing_stitches_witness :
    getFormData ⟨true, "", "", ""⟩ ⟨false, "3", "", ""⟩ ⟨false, "", "", ""⟩
      ⟨false, "", "", ""⟩ ⟨false, "", "", ""⟩ = none :=
  getFormData_missing_stitches _ _ _ _ _ rfl (Or.inl rfl)

end EmbCalc
